import Mathlib

/-!
Shallow embedding of the `unicef_api` Python package (the unicefData
repository): the dataflow fallback orchestrator and candidate-list
construction (`src/python/unicef_api/__init__.py`, `DATAFLOW_ALTERNATIVES`
and `_fetch_indicator_with_fallback`), the post-production transformation
pipeline of `get_unicef` and its helper stages, and the metadata vintage
store (`src/python/unicef_api/metadata.py`).  Theorems at the end settle
the specification claims about these components.
-/

namespace UnicefData

/-- A single cell of a pandas DataFrame: a string, a rational number, or a
missing value (NaN / None). -/
inductive Cell where
  | str (s : String)
  | num (q : ℚ)
  | na
deriving DecidableEq

/-- A DataFrame row: cells aligned positionally with the frame's columns. -/
abbrev Row := List Cell

/-- A pandas DataFrame: named columns and rows of cells. -/
structure Frame where
  cols : List String
  rows : List Row
deriving DecidableEq

namespace Frame

/-- `pd.DataFrame()`: the empty frame. -/
def emptyFrame : Frame := ⟨[], []⟩

/-- `df.empty`: true when the frame has no rows or no columns. -/
def isEmptyTable (f : Frame) : Bool := f.rows.isEmpty || f.cols.isEmpty

/-- Position of a column label among the frame's columns. -/
def colIdx (f : Frame) (c : String) : Option Nat := f.cols.findIdx? (· = c)

/-- `c in df.columns`. -/
def hasCol (f : Frame) (c : String) : Bool := (f.colIdx c).isSome

end Frame

/-!
## Fallback orchestrator (`_fetch_indicator_with_fallback`)

The Observation Fetcher (`client.fetch_indicator`, module
`sdmx_client.py`) is an external collaborator: it is modelled as a
function from the attempted dataflow id to an outcome (the indicator
code, country filter and year range are fixed for one orchestrator run).
-/

/-- Non-404 fetch failures raised by the SDMX client
(`SDMXBadRequestError`, `SDMXServerError`, `SDMXAuthenticationError`,
`SDMXForbiddenError`, `SDMXUnavailableError`). -/
inductive FetchErr where
  | badRequest
  | serverError
  | authError
  | forbidden
  | unavailable
deriving DecidableEq

/-- Outcome of one `client.fetch_indicator` call: a returned table, an
`SDMXNotFoundError` (404), or any other raised error. -/
inductive FetchOutcome where
  | ok (t : Frame)
  | notFound
  | failed (e : FetchErr)
deriving DecidableEq

/-- `DATAFLOW_ALTERNATIVES` (source lines 129-138): the static dict from
indicator prefix to alternative dataflows, written as the equivalent
lookup function. -/
def dataflowAlternativesFor (p : String) : List String :=
  if p = "ED" then ["EDUCATION_UIS_SDG", "EDUCATION"]
  else if p = "PT" then ["PT", "PT_CM", "PT_FGM"]
  else if p = "PV" then ["CHLD_PVTY", "GLOBAL_DATAFLOW"]
  else if p = "NT" then ["NUTRITION", "GLOBAL_DATAFLOW"]
  else []

/-- Characters before the first underscore (the head of `split('_')`). -/
def charsBeforeUnderscore : List Char → List Char
  | [] => []
  | c :: cs => if c = '_' then [] else c :: charsBeforeUnderscore cs

/-- `indicator_code.split('_')[0] if '_' in indicator_code else
indicator_code[:2]` (source line 181), written over the underlying
character list so that it evaluates by kernel reduction. -/
def indicatorPrefixOf (code : String) : String :=
  if code.toList.contains '_' then ⟨charsBeforeUnderscore code.toList⟩
  else ⟨code.toList.take 2⟩

/-- `if x not in xs: xs.append(x)`: append preserving first-seen order. -/
def appendIfAbsent (acc : List String) (a : String) : List String :=
  if a ∈ acc then acc else acc ++ [a]

/-- The candidate list built by `_fetch_indicator_with_fallback`
(source lines 177-191): the primary dataflow, then the prefix-based
alternatives each skipped when already present, then `GLOBAL_DATAFLOW`
when not already present. -/
def dataflowsToTry (indicatorCode dataflow : String) : List String :=
  let base := (dataflowAlternativesFor (indicatorPrefixOf indicatorCode)).foldl
    appendIfAbsent [dataflow]
  appendIfAbsent base "GLOBAL_DATAFLOW"

/-- The candidate loop of `_fetch_indicator_with_fallback` (source lines
195-237): a successful non-empty table is returned; a successful empty
table falls through to the next candidate; `SDMXNotFoundError` continues
to the next candidate; any other error propagates; an exhausted list
yields a fresh empty frame. -/
def fetchLoop (fetch : String → FetchOutcome) : List String → Except FetchErr Frame
  | [] => .ok Frame.emptyFrame
  | d :: ds =>
    match fetch d with
    | .ok t => if t.isEmptyTable then fetchLoop fetch ds else .ok t
    | .notFound => fetchLoop fetch ds
    | .failed e => .error e

/-- `_fetch_indicator_with_fallback` (source lines 144-237). -/
def fetchIndicatorWithFallback (fetch : String → FetchOutcome)
    (indicatorCode dataflow : String) : Except FetchErr Frame :=
  fetchLoop fetch (dataflowsToTry indicatorCode dataflow)

/-!
## Post-production pipeline of `get_unicef`

Errors and warnings are structured values instead of interpolated
message strings: `duplicateRows n` is the `ValueError` naming the
duplicate count, `keyError c` is the pandas `KeyError` raised when a
referenced column label is absent.
-/

inductive PyErr where
  | keyError (c : String)
  | duplicateRows (n : Nat)
deriving DecidableEq

inductive Warning where
  | removedDuplicates (n : Nat)
  | wideWithMultipleIndicators
  | wideIndicatorsWithSingleIndicator
deriving DecidableEq

namespace Frame

/-- Cell of a row at a column position (positions are always in range
when produced by `colIdx`). -/
def cellAt (r : Row) (i : Nat) : Cell := r.getD i .na

/-- Column position, raising `KeyError` when the label is absent. -/
def colIdxE (f : Frame) (c : String) : Except PyErr Nat :=
  match f.colIdx c with
  | some i => .ok i
  | none => .error (.keyError c)

/-- `df.rename(columns={old: new})`. -/
def renameCol (f : Frame) (old new : String) : Frame :=
  ⟨f.cols.map fun c => if c = old then new else c, f.rows⟩

/-- Column assignment `df[c] = vals`: overwrite the column when present,
append it otherwise. -/
def withCol (f : Frame) (c : String) (vals : List Cell) : Frame :=
  match f.colIdx c with
  | some i => ⟨f.cols, (f.rows.zip vals).map fun rv => rv.1.set i rv.2⟩
  | none => ⟨f.cols ++ [c], (f.rows.zip vals).map fun rv => rv.1 ++ [rv.2]⟩

/-- Cell of a row at a column label (missing label reads as NaN; used
only where the source guarantees or tolerates absence). -/
def cellOf (f : Frame) (r : Row) (c : String) : Cell :=
  match f.colIdx c with
  | some i => cellAt r i
  | none => .na

/-- `df.dropna(subset=[c])`; the call sites in the source all guard on
the column being present, so an absent label is left a no-op here. -/
def dropnaSubset (f : Frame) (c : String) : Frame :=
  match f.colIdx c with
  | some i => ⟨f.cols, f.rows.filter fun r => decide (cellAt r i ≠ .na)⟩
  | none => f

/-- Number of distinct values in the column at position `i`
(`df[c].nunique()`, counting NaN like pandas does not: the source only
compares the result with 1 on indicator-code columns without NaNs). -/
def nuniqueAt (f : Frame) (i : Nat) : Nat :=
  ((f.rows.map fun r => cellAt r i).eraseDups).length

end Frame

/-- `pd.to_numeric(x, errors='coerce')` on one cell: numbers pass
through, decimal strings parse, anything else coerces to NaN. -/
def toNumericCell : Cell → Cell
  | .num q => .num q
  | .str s =>
    match s.toNat? with
    | some n => .num n
    | none => .na
  | .na => .na

/-- First-occurrence de-duplication, `drop_duplicates(keep='first')`. -/
def dedupFirstAux {α : Type} [DecidableEq α] : List α → List α → List α
  | _, [] => []
  | seen, r :: rs =>
    if r ∈ seen then dedupFirstAux seen rs
    else r :: dedupFirstAux (r :: seen) rs

def dedupFirst {α : Type} [DecidableEq α] (l : List α) : List α :=
  dedupFirstAux [] l

/-- `len(df) - len(df.drop_duplicates(keep='first'))`: the duplicate
count reported by stage 0 of the pipeline. -/
def dupCount (rows : List Row) : Nat := rows.length - (dedupFirst rows).length

/-- Total comparison on cells used for sort keys: numbers by value,
strings lexicographically, a missing value after any present value
(pandas `na_position='last'`).  The cross-kind order is arbitrary
(pandas raises on mixed-type keys, which no pipeline path produces). -/
def cellCmp : Cell → Cell → Ordering
  | .num a, .num b => if a < b then .lt else if b < a then .gt else .eq
  | .num _, .str _ => .lt
  | .num _, .na => .lt
  | .str _, .num _ => .gt
  | .str a, .str b => if a < b then .lt else if b < a then .gt else .eq
  | .str _, .na => .lt
  | .na, .num _ => .gt
  | .na, .str _ => .gt
  | .na, .na => .eq

/-- Lexicographic comparison of key tuples. -/
def cellListCmp : List Cell → List Cell → Ordering
  | [], [] => .eq
  | [], _ :: _ => .lt
  | _ :: _, [] => .gt
  | a :: as, b :: bs =>
    match cellCmp a b with
    | .eq => cellListCmp as bs
    | o => o

/-- Comparison of two rows under a multi-column sort key with per-column
ascending flags (`sort_values(by=..., ascending=...)`). -/
def rowKeyCmp (keys : List (Nat × Bool)) (r1 r2 : Row) : Ordering :=
  match keys with
  | [] => .eq
  | (i, asc) :: rest =>
    let c := cellCmp (Frame.cellAt r1 i) (Frame.cellAt r2 i)
    match if asc then c else c.swap with
    | .eq => rowKeyCmp rest r1 r2
    | o => o

/-- Insert into a sorted list, after any elements not strictly greater
(keeps the sort stable when driven by `stableSort`). -/
def insertSorted {α : Type} (lt : α → α → Bool) (a : α) : List α → List α
  | [] => [a]
  | b :: l => if lt a b then a :: b :: l else b :: insertSorted lt a l

/-- Stable insertion sort: elements are inserted in their original
order, each after the elements already placed that compare equal. -/
def stableSort {α : Type} (lt : α → α → Bool) (l : List α) : List α :=
  l.foldl (fun acc r => insertSorted lt r acc) []

namespace Frame

/-- `df.sort_values(by, ascending=...)`: a missing sort column raises
KeyError (the first missing label, in order). -/
def sortValues (f : Frame) (cols : List (String × Bool)) : Except PyErr Frame := do
  let keys ← cols.mapM fun cb => do
    let i ← f.colIdxE cb.1
    pure (i, cb.2)
  pure ⟨f.cols, stableSort (fun r1 r2 => rowKeyCmp keys r1 r2 = .lt) f.rows⟩

end Frame

/-- `df.groupby(groupKey).head(n)` after a sort: keep a row when fewer
than `n` earlier rows share its group key, preserving row order. -/
def groupHeadAux (key : Row → List Cell) (n : Int) :
    List Row → List Row → List Row
  | _, [] => []
  | prev, r :: rs =>
    (if (prev.countP fun p => decide (key p = key r)) < n then [r] else []) ++
      groupHeadAux key n (prev ++ [r]) rs

namespace Frame

/-- `df.groupby(cols).head(n)`; missing group columns raise KeyError. -/
def groupbyHead (f : Frame) (cols : List String) (n : Int) :
    Except PyErr Frame := do
  let idxs ← cols.mapM f.colIdxE
  pure ⟨f.cols, groupHeadAux (fun r => idxs.map (cellAt r)) n [] f.rows⟩

end Frame

/-- `_apply_mrv` (source lines 763-773): sort by country(-indicator) and
descending year, then keep the head `n` of each group.  The function
addresses the columns `country_code`, `indicator_code` and `year`. -/
def applyMrv (df : Frame) (n : Int) : Except PyErr Frame := do
  if df.hasCol "indicator_code" then
    let df1 ← df.sortValues
      [("country_code", true), ("indicator_code", true), ("year", false)]
    df1.groupbyHead ["country_code", "indicator_code"] n
  else
    let df1 ← df.sortValues [("country_code", true), ("year", false)]
    df1.groupbyHead ["country_code"] n

/-- `series.idxmax()` over a group: the first row attaining the maximum
of the column at `yearIdx`, ignoring missing values. -/
def firstMaxRow (yearIdx : Nat) (rows : List Row) : Option Row :=
  rows.foldl
    (fun best r =>
      match Frame.cellAt r yearIdx with
      | .na => best
      | c =>
        match best with
        | none => some r
        | some b =>
          if cellCmp (Frame.cellAt b yearIdx) c = .lt then some r else some b)
    none

/-- `_apply_latest` (source lines 776-788): drop rows with a missing
`value`, then keep the first row attaining the maximum `year` per
country(-indicator) group; `df.loc[idx]` emits the survivors in sorted
group-key order (the groupby default).  A group whose years are all
missing contributes nothing (pandas would raise there; no pipeline path
reaches that case). -/
def applyLatest (df : Frame) : Except PyErr Frame := do
  let df := if df.hasCol "value" then df.dropnaSubset "value" else df
  let keyCols := if df.hasCol "indicator_code"
    then ["country_code", "indicator_code"] else ["country_code"]
  let idxs ← keyCols.mapM df.colIdxE
  let yearIdx ← df.colIdxE "year"
  let key := fun r => idxs.map (Frame.cellAt r)
  let keys := stableSort (fun a b => cellListCmp a b = .lt)
    (dedupFirst (df.rows.map key))
  let picked := keys.filterMap fun k =>
    firstMaxRow yearIdx (df.rows.filter fun r => decide (key r = k))
  pure ⟨df.cols, picked⟩

/-- Lookup tables consumed by the metadata-enrichment stage.  The static
country-to-region / income-group / continent dict literals
(`_get_country_regions`, `_get_income_groups`, `_get_continents`,
source lines 866-1067) and the indicator registry
(`get_indicator_info`, module `indicator_registry.py`) are consulted
only through dictionary lookups; they are abstracted as lookup
functions, and every theorem below holds for all of them. -/
structure LookupTables where
  regions : String → Option String
  incomeGroups : String → Option String
  continents : String → Option String
  indicatorInfo : String → Option (String × String)

/-- `series.map(static_dict)`: a string key is looked up (keys missing
from the dict map to NaN); non-string cells are never keys of the
string-keyed dicts. -/
def mapCellLookup (t : String → Option String) : Cell → Cell
  | .str s =>
    match t s with
    | some v => .str v
    | none => .na
  | _ => .na

/-- `_add_country_metadata` (source lines 709-741): for each requested
field, `df[field] = df['country_code'].map(static_dict)` — a KeyError
when the `country_code` column is absent. -/
def addCountryMetadata (T : LookupTables) (df : Frame)
    (metadataList : List String) : Except PyErr Frame := do
  let df1 ←
    if "region" ∈ metadataList then do
      let i ← df.colIdxE "country_code"
      pure (df.withCol "region"
        (df.rows.map fun r => mapCellLookup T.regions (Frame.cellAt r i)))
    else pure df
  let df2 ←
    if "income_group" ∈ metadataList then do
      let i ← df1.colIdxE "country_code"
      pure (df1.withCol "income_group"
        (df1.rows.map fun r => mapCellLookup T.incomeGroups (Frame.cellAt r i)))
    else pure df1
  if "continent" ∈ metadataList then do
    let i ← df2.colIdxE "country_code"
    pure (df2.withCol "continent"
      (df2.rows.map fun r => mapCellLookup T.continents (Frame.cellAt r i)))
  else pure df2

/-- One field written by `_add_indicator_metadata`: rows whose indicator
code has registry info receive the selected field, other rows keep
their previous value (NaN for a freshly created column). -/
def setIndicatorField (T : LookupTables) (sel : String × String → String)
    (field : String) (i : Nat) (df : Frame) : Frame :=
  df.withCol field (df.rows.map fun r =>
    match Frame.cellAt r i with
    | .str s =>
      match T.indicatorInfo s with
      | some nc => .str (sel nc)
      | none => df.cellOf r field
    | _ => df.cellOf r field)

/-- `_add_indicator_metadata` (source lines 744-760): a no-op without an
`indicator_code` column. -/
def addIndicatorMetadata (T : LookupTables) (df : Frame)
    (metadataList : List String) : Frame :=
  match df.colIdx "indicator_code" with
  | none => df
  | some i =>
    let df1 := if "indicator_name" ∈ metadataList then
        setIndicatorField T Prod.fst "indicator_name" i df
      else df
    if "indicator_category" ∈ metadataList then
      setIndicatorField T Prod.snd "indicator_category" i df1
    else df1

/-- Label for a pivoted column (cosmetic only: no claim inspects pivoted
column names). -/
def cellToLabel : Cell → String
  | .str s => s
  | .num q => toString q.num ++ (if q.den = 1 then "" else "/" ++ toString q.den)
  | .na => "nan"

/-- `df.pivot_table(index=..., columns=..., values=..., aggfunc='first')`
followed by `reset_index()`: rows grouped by the index tuple (emitted in
sorted key order), one output column per distinct pivot value (sorted),
each cell the first non-missing value in its group ('first' skips NaN),
NaN where a group has no value.  Missing labels raise KeyError. -/
def pivotTable (f : Frame) (indexCols : List String) (colCol valCol : String) :
    Except PyErr Frame := do
  let idxs ← indexCols.mapM f.colIdxE
  let ci ← f.colIdxE colCol
  let vi ← f.colIdxE valCol
  let key := fun r => idxs.map (Frame.cellAt r)
  let keys := stableSort (fun a b => cellListCmp a b = .lt)
    (dedupFirst (f.rows.map key))
  let colVals := stableSort (fun a b => cellCmp a b = .lt)
    (dedupFirst (f.rows.map fun r => Frame.cellAt r ci))
  let firstVal := fun (k : List Cell) (cv : Cell) =>
    (f.rows.filterMap fun r =>
      if key r = k ∧ Frame.cellAt r ci = cv then
        match Frame.cellAt r vi with
        | .na => none
        | c => some c
      else none).headD .na
  pure ⟨indexCols ++ colVals.map cellToLabel,
    keys.map fun k => k ++ colVals.map (firstVal k)⟩

/-- `_apply_format` (source lines 791-848): the `wide` pivot (years as
columns) and the `wide_indicators` pivot (indicators as columns), with
their console warnings; any other format string falls through
unchanged.  The `indicators` argument is accepted and unused, as in the
source. -/
def applyFormat (df : Frame) (format : String) (_indicators : List String) :
    Except PyErr (Frame × List Warning) := do
  if format = "wide" then
    let warns :=
      match df.colIdx "indicator_code" with
      | some i =>
        if 1 < df.nuniqueAt i then [Warning.wideWithMultipleIndicators] else []
      | none => []
    let indexCols := ["country_code"]
    let indexCols := if df.hasCol "country_name"
      then indexCols ++ ["country_name"] else indexCols
    let indexCols := ["region", "income_group", "continent"].foldl
      (fun acc c => if df.hasCol c then acc ++ [c] else acc) indexCols
    let indexCols :=
      match df.colIdx "indicator_code" with
      | some i =>
        if 1 < df.nuniqueAt i then indexCols ++ ["indicator_code"] else indexCols
      | none => indexCols
    let piv ← pivotTable df indexCols "year" "value"
    pure (piv, warns)
  else if format = "wide_indicators" then
    match df.colIdx "indicator_code" with
    | none => pure (df, [Warning.wideIndicatorsWithSingleIndicator])
    | some i =>
      if df.nuniqueAt i = 1 then
        pure (df, [Warning.wideIndicatorsWithSingleIndicator])
      else
        let indexCols := if df.hasCol "country_name"
          then ["country_code", "country_name", "year"]
          else ["country_code", "year"]
        let indexCols := ["region", "income_group", "continent"].foldl
          (fun acc c => if df.hasCol c then acc ++ [c] else acc) indexCols
        let piv ← pivotTable df indexCols "indicator_code" "value"
        pure (piv, [])
  else
    pure (df, [])

/-- `df[cs]` column selection (all labels present at the call site). -/
def selectCols (df : Frame) (cs : List String) : Frame :=
  ⟨cs, df.rows.map fun r => cs.map fun c => df.cellOf r c⟩

/-- `_simplify_columns` (source lines 851-863): in long format keep the
available essential columns plus any enrichment columns; wide output is
left untouched. -/
def simplifyColumns (df : Frame) (format : String) : Frame :=
  if format = "long" then
    let essential := ["country_code", "country_name", "indicator_code",
      "year", "value"]
    let available := essential.filter fun c => df.hasCol c
    let available := ["region", "income_group", "continent", "indicator_name"].foldl
      (fun acc c => if df.hasCol c then acc ++ [c] else acc) available
    selectCols df available
  else df

/-- The post-production options of `get_unicef` (source lines 466-485)
with their documented defaults. -/
structure PostOptions where
  format : String := "long"
  latest : Bool := false
  addMetadata : Option (List String) := none
  dropna : Bool := false
  simplify : Bool := false
  mrv : Option Int := none
  raw : Bool := false
  ignoreDuplicates : Bool := false
deriving DecidableEq

/-- The `col_mapping` applied at the head of post-production (source
lines 640-652), in dict order; each rename fires only when the source
name is present and the target name is not. -/
def colMapping : List (String × String) :=
  [("REF_AREA", "iso3"), ("country_code", "iso3"),
   ("INDICATOR", "indicator"), ("indicator_code", "indicator"),
   ("TIME_PERIOD", "period"), ("year", "period"),
   ("OBS_VALUE", "value"), ("country_name", "country")]

def standardizeCols (f : Frame) : Frame :=
  colMapping.foldl
    (fun acc oldnew =>
      if acc.hasCol oldnew.1 && !(acc.hasCol oldnew.2) then
        acc.renameCol oldnew.1 oldnew.2
      else acc) f

/-- `result['period'] = pd.to_numeric(result['period'], errors='coerce')`
when a period column exists (source lines 654-656). -/
def coercePeriodNumeric (f : Frame) : Frame :=
  match f.colIdx "period" with
  | some i => ⟨f.cols, f.rows.map fun r => r.set i (toNumericCell (Frame.cellAt r i))⟩
  | none => f

/-- The post-production section of `get_unicef` (source lines 609-706):
raw or empty results pass through; otherwise column standardization and
numeric period coercion, then duplicate detection (stage 0), metadata
enrichment (1), missing-value drop (2), most-recent-values (3), latest
(4), shape transformation (5) and column projection (6), each stage
gated exactly as in the source.  The result carries the emitted
warnings; the first raised error aborts the call. -/
def getUnicefPostProduction (T : LookupTables) (indicators : List String)
    (result : Frame) (o : PostOptions) : Except PyErr (Frame × List Warning) := do
  if o.raw || result.isEmptyTable then
    pure (result, [])
  else
    let result := standardizeCols result
    let result := coercePeriodNumeric result
    let dupState ←
      if 0 < result.rows.length then
        if 0 < dupCount result.rows then
          if o.ignoreDuplicates then
            pure ((⟨result.cols, dedupFirst result.rows⟩ : Frame),
              [Warning.removedDuplicates (dupCount result.rows)])
          else
            Except.error (PyErr.duplicateRows (dupCount result.rows))
        else pure (result, [])
      else pure (result, [])
    let result := dupState.1
    let warns := dupState.2
    let result ←
      match o.addMetadata with
      | some ml =>
        if ¬ ml.isEmpty ∧ result.hasCol "iso3" then do
          let r1 ← addCountryMetadata T result ml
          pure (addIndicatorMetadata T r1 ml)
        else pure result
      | none => pure result
    let result := if o.dropna && result.hasCol "value"
      then result.dropnaSubset "value" else result
    let result ←
      match o.mrv with
      | some n =>
        if 0 < n ∧ result.hasCol "iso3" ∧ result.hasCol "period" then
          applyMrv result n
        else pure result
      | none => pure result
    let result ←
      if o.latest && result.hasCol "iso3" && result.hasCol "period" then
        applyLatest result
      else pure result
    let fmtState ←
      if o.format ≠ "long" ∧ result.hasCol "iso3" then
        applyFormat result o.format indicators
      else pure (result, [])
    let result := fmtState.1
    let warns := warns ++ fmtState.2
    let result := if o.simplify then simplifyColumns result o.format else result
    pure (result, warns)

/-!
## Sub-annual period encoding

The conversion itself lives in `utils.clean_dataframe` (module
`utils.py`, outside the sources at hand); the formula below is the one
documented in the module docstring (source lines 15-28) and in the
`get_unicef` docstring, which is also the spec's own formula.
-/

/-- `decimal_year = year + month/12`. -/
def decimalYear (y : ℤ) (m : ℕ) : ℚ := (y : ℚ) + (m : ℚ) / 12

/-!
## Metadata vintage store (`metadata.py`)

The reference-catalog service and the YAML file primitives are external
collaborators; a catalog file is modelled by its list of entry keys and
the store by the contents of `current/`, the `vintages/<date>/`
directories and the `sync_history.yaml` log.
-/

/-- Contents of the three catalog files of a snapshot directory
(`none` = the file is absent). -/
structure CatalogFiles where
  dataflowsY : Option (List String)
  indicatorsY : Option (List String)
  codelistsY : Option (List String)
deriving DecidableEq

/-- `summary.yaml` written into a vintage directory. -/
structure VintageSummary where
  vintageDate : String
  syncedAt : ℤ
  dataflows : Nat
  indicators : Nat
  codelists : Nat
deriving DecidableEq

/-- A `vintages/<date>/` directory: copies of the current catalog files
plus the summary. -/
structure VintageDir where
  files : CatalogFiles
  summary : VintageSummary
deriving DecidableEq

/-- The `synced_at` field of a history entry as `_is_stale` sees it:
absent, unparsable, or a parsed instant (seconds). -/
inductive SyncInstant where
  | absent
  | unparsable
  | parsed (t : ℤ)
deriving DecidableEq

/-- One entry of `sync_history.yaml`. -/
structure SyncEntry where
  vintageDate : String
  syncedAt : SyncInstant
  dataflows : Nat
  indicators : Nat
  codelists : Nat
  errors : List String
deriving DecidableEq

/-- On-disk state of the metadata cache. -/
structure MetaStore where
  current : CatalogFiles
  vintages : List (String × VintageDir)
  history : List SyncEntry
deriving DecidableEq

/-- What the catalog service produced for one catalog during a
`sync_all` run: fetched entry keys, or a raised error message. -/
inductive CatalogFetch where
  | ok (entries : List String)
  | failed (msg : String)
deriving DecidableEq

/-- The three catalog fetch outcomes of one `sync_all` run. -/
structure FetchedCatalogs where
  dataflows : CatalogFetch
  codelists : CatalogFetch
  indicators : CatalogFetch
deriving DecidableEq

/-- One catalog step of `sync_all` (source lines 211-230): on success
the catalog file in `current/` is rewritten and its count reported; on
an exception the file is left as it was and the error is collected. -/
def syncStep (label : String) (fetched : CatalogFetch)
    (file : Option (List String)) (errors : List String) :
    Option (List String) × Nat × List String :=
  match fetched with
  | .ok entries => (some entries, entries.length, errors)
  | .failed msg => (file, 0, errors ++ [label ++ ": " ++ msg])

/-- `_create_vintage` (source lines 380-407): skip when a directory for
the date already exists (never overwrite); otherwise copy the current
catalog files and write the summary. -/
def createVintage (s : MetaStore) (vintageDate : String) (syncedAt : ℤ)
    (counts : Nat × Nat × Nat) : MetaStore :=
  match s.vintages.lookup vintageDate with
  | some _ => s
  | none =>
    ⟨s.current,
     s.vintages ++ [(vintageDate,
       ⟨s.current, ⟨vintageDate, syncedAt, counts.1, counts.2.1, counts.2.2⟩⟩)],
     s.history⟩

/-- `_update_sync_history` (source lines 644-665): push the entry to the
front and keep the 50 most recent. -/
def updateSyncHistory (s : MetaStore) (e : SyncEntry) : MetaStore :=
  ⟨s.current, s.vintages, (e :: s.history).take 50⟩

/-- The current-directory part of `sync_all`: the three catalog syncs
run independently (source lines 211-230), producing the new `current/`
files, the per-catalog counts (dataflows, indicators, codelists) and
the collected errors. -/
def syncCurrent (cur : CatalogFiles) (fetched : FetchedCatalogs) :
    CatalogFiles × (Nat × Nat × Nat) × List String :=
  let step1 := syncStep "Dataflows" fetched.dataflows cur.dataflowsY []
  let step2 := syncStep "Codelists" fetched.codelists cur.codelistsY step1.2.2
  let step3 := syncStep "Indicators" fetched.indicators cur.indicatorsY step2.2.2
  (⟨step1.1, step3.1, step2.1⟩, (step1.2.1, step3.2.1, step2.2.1), step3.2.2)

/-- `sync_all` (source lines 184-246): sync dataflows, codelists and
indicators independently (collecting per-catalog failures in the
summary), then create the dated vintage snapshot unless one already
exists, then update the sync history.  Returns the new store and the
summary entry. -/
def syncAll (s : MetaStore) (now : ℤ) (vintageDate : String)
    (fetched : FetchedCatalogs) (createVintageFlag : Bool) :
    MetaStore × SyncEntry :=
  let sc := syncCurrent s.current fetched
  let s1 : MetaStore := ⟨sc.1, s.vintages, s.history⟩
  let s2 := if createVintageFlag then createVintage s1 vintageDate now sc.2.1
    else s1
  let entry : SyncEntry :=
    ⟨vintageDate, .parsed now, sc.2.1.1, sc.2.1.2.1, sc.2.1.2.2, sc.2.2⟩
  (updateSyncHistory s2 entry, entry)

/-- Staleness of a sync history: an empty history, a missing timestamp
or an unparsable one is stale; otherwise the cache is stale when the
age in whole days (`timedelta.days` = floor division of the age in
seconds by 86400) strictly exceeds the threshold. -/
def staleHistory (history : List SyncEntry) (now maxAgeDays : ℤ) : Bool :=
  match history with
  | [] => true
  | e :: _ =>
    match e.syncedAt with
    | .absent => true
    | .unparsable => true
    | .parsed t => decide (maxAgeDays < (now - t).fdiv 86400)

/-- `_is_stale` (source lines 162-178), reading the newest history
entry. -/
def isStale (s : MetaStore) (now : ℤ) (maxAgeDays : ℤ) : Bool :=
  staleHistory s.history now maxAgeDays

/-- `ensure_synced` (source lines 142-160): sync and report `true` when
the cache is stale, otherwise leave the store untouched and report
`false`. -/
def ensureSynced (s : MetaStore) (now maxAgeDays : ℤ) (vintageDate : String)
    (fetched : FetchedCatalogs) : Bool × MetaStore :=
  if isStale s now maxAgeDays then
    (true, (syncAll s now vintageDate fetched true).1)
  else
    (false, s)

/-!
## Concrete inputs used by the claim theorems and witnesses
-/

/-- An empty set of lookup tables, used to instantiate witnesses (the
theorems hold for every `LookupTables`). -/
def noTables : LookupTables :=
  ⟨fun _ => none, fun _ => none, fun _ => none, fun _ => none⟩

/-- A tidy fetched table (the cleaned fetcher schema that `get_unicef`
standardizes to iso3/indicator/period/value): under-five mortality for
Albania, annual periods 2018-2021. -/
def mrvExampleInput : Frame :=
  ⟨["indicator_code", "country_code", "country_name", "year", "value"],
   [[.str "CME_MRY0T4", .str "ALB", .str "Albania", .num 2018, .num 10],
    [.str "CME_MRY0T4", .str "ALB", .str "Albania", .num 2019, .num 9],
    [.str "CME_MRY0T4", .str "ALB", .str "Albania", .num 2020, .num 8],
    [.str "CME_MRY0T4", .str "ALB", .str "Albania", .num 2021, .num 7]]⟩

/-- Albania 2018-2021 with the 2021 value missing. -/
def latestExampleInput : Frame :=
  ⟨["indicator_code", "country_code", "country_name", "year", "value"],
   [[.str "CME_MRY0T4", .str "ALB", .str "Albania", .num 2018, .num 10],
    [.str "CME_MRY0T4", .str "ALB", .str "Albania", .num 2019, .num 9],
    [.str "CME_MRY0T4", .str "ALB", .str "Albania", .num 2020, .num 8],
    [.str "CME_MRY0T4", .str "ALB", .str "Albania", .num 2021, .na]]⟩

/-- Two countries, one period each: duplicate-free input for probing the
non-duplicate pipeline stages. -/
def stagesExampleInput : Frame :=
  ⟨["indicator_code", "country_code", "country_name", "year", "value"],
   [[.str "CME_MRY0T4", .str "ALB", .str "Albania", .num 2020, .num 8],
    [.str "CME_MRY0T4", .str "USA", .str "United States", .num 2020, .num 6]]⟩

/-- A raw table holding the same observation twice (rows identical in
every column). -/
def dupExampleInput : Frame :=
  ⟨["indicator_code", "country_code", "country_name", "year", "value"],
   [[.str "CME_MRY0T4", .str "ALB", .str "Albania", .num 2020, .num 8],
    [.str "CME_MRY0T4", .str "ALB", .str "Albania", .num 2020, .num 8]]⟩

/-- A store with an empty cache directory. -/
def emptyStore : MetaStore := ⟨⟨none, none, none⟩, [], []⟩

/-- A fully successful catalog fetch. -/
def fetchedA : FetchedCatalogs :=
  ⟨.ok ["CME", "NUTRITION"], .ok ["CL_SEX"], .ok ["CME_MRY0T4"]⟩

/-- A later fetch returning different catalogs. -/
def fetchedB : FetchedCatalogs :=
  ⟨.ok ["CME"], .ok ["CL_SEX", "CL_AGE"], .ok ["CME_MRY0T4", "CME_MRM0"]⟩

/-! ### Helper lemmas about candidate-list construction -/

lemma appendIfAbsent_ne_nil (acc : List String) (a : String) :
    appendIfAbsent acc a ≠ [] := by
  unfold appendIfAbsent
  split
  · rename_i h
    intro hnil
    subst hnil
    exact absurd h (List.not_mem_nil a)
  · simp

lemma mem_appendIfAbsent (acc : List String) (a b : String) :
    b ∈ appendIfAbsent acc a ↔ b ∈ acc ∨ b = a := by
  unfold appendIfAbsent
  split
  · rename_i h
    constructor
    · exact fun hb => Or.inl hb
    · rintro (hb | rfl)
      · exact hb
      · exact h
  · simp

lemma nodup_appendIfAbsent (acc : List String) (a : String)
    (h : acc.Nodup) : (appendIfAbsent acc a).Nodup := by
  unfold appendIfAbsent
  split
  · exact h
  · rename_i hna
    simpa [List.nodup_append] using ⟨h, hna⟩

lemma nodup_foldl_appendIfAbsent (alts : List String) :
    ∀ acc : List String, acc.Nodup → (alts.foldl appendIfAbsent acc).Nodup := by
  induction alts with
  | nil => intro acc h; simpa using h
  | cons a alts ih =>
    intro acc h
    exact ih (appendIfAbsent acc a) (nodup_appendIfAbsent acc a h)

lemma foldl_appendIfAbsent_ne_nil (alts : List String) :
    ∀ acc : List String, acc ≠ [] → alts.foldl appendIfAbsent acc ≠ [] := by
  induction alts with
  | nil => intro acc h; simpa using h
  | cons a alts ih =>
    intro acc _
    exact ih (appendIfAbsent acc a) (appendIfAbsent_ne_nil acc a)

lemma getLast_appendIfAbsent_of_not_mem (acc : List String) (a : String)
    (h : a ∉ acc) : (appendIfAbsent acc a).getLast? = some a := by
  unfold appendIfAbsent
  rw [if_neg h]
  simp [List.getLast?_append]

lemma appendIfAbsent_of_mem (acc : List String) (a : String)
    (h : a ∈ acc) : appendIfAbsent acc a = acc := by
  unfold appendIfAbsent
  exact if_pos h

lemma appendIfAbsent_of_not_mem (acc : List String) (a : String)
    (h : a ∉ acc) : appendIfAbsent acc a = acc ++ [a] := by
  unfold appendIfAbsent
  exact if_neg h

lemma mem_foldl_appendIfAbsent (alts : List String) :
    ∀ (acc : List String) (b : String),
      b ∈ alts.foldl appendIfAbsent acc ↔ b ∈ acc ∨ b ∈ alts := by
  induction alts with
  | nil => intro acc b; simp
  | cons a alts ih =>
    intro acc b
    rw [List.foldl_cons, ih (appendIfAbsent acc a) b, mem_appendIfAbsent,
      List.mem_cons]
    tauto

/-- Shape of the static alternative lists that makes the candidate list
end in `GLOBAL_DATAFLOW` when the primary dataflow is something else:
either `GLOBAL_DATAFLOW` does not occur among the alternatives, or it is
exactly their last element. -/
lemma getLast_candidates_of_alts (alts : List String) (primary : String)
    (hp : primary ≠ "GLOBAL_DATAFLOW")
    (halts : "GLOBAL_DATAFLOW" ∉ alts ∨
      ∃ pre, alts = pre ++ ["GLOBAL_DATAFLOW"] ∧ "GLOBAL_DATAFLOW" ∉ pre) :
    (appendIfAbsent (alts.foldl appendIfAbsent [primary])
      "GLOBAL_DATAFLOW").getLast? = some "GLOBAL_DATAFLOW" := by
  rcases halts with hout | ⟨pre, rfl, hpre⟩
  · refine getLast_appendIfAbsent_of_not_mem _ _ ?_
    rw [mem_foldl_appendIfAbsent]
    rintro (hm | hm)
    · exact hp (List.mem_singleton.mp hm).symm
    · exact hout hm
  · have hnotin : "GLOBAL_DATAFLOW" ∉ pre.foldl appendIfAbsent [primary] := by
      rw [mem_foldl_appendIfAbsent]
      rintro (hm | hm)
      · exact hp (List.mem_singleton.mp hm).symm
      · exact hpre hm
    have hbase : (pre ++ ["GLOBAL_DATAFLOW"]).foldl appendIfAbsent [primary]
        = pre.foldl appendIfAbsent [primary] ++ ["GLOBAL_DATAFLOW"] := by
      rw [List.foldl_append, List.foldl_cons, List.foldl_nil,
        appendIfAbsent_of_not_mem _ _ hnotin]
    rw [hbase, appendIfAbsent_of_mem _ _ (by simp)]
    simp

/-!
## Claims about the orchestrator and the candidate list
-/

/-- C3 (counterexample): when the primary dataflow is itself
`GLOBAL_DATAFLOW` and the indicator prefix has alternatives, the
candidate list does not end with the universal fallback: for
`NT_ANT_HAZ_NE2_MOD` with primary `GLOBAL_DATAFLOW` the list is
`[GLOBAL_DATAFLOW, NUTRITION]`. -/
theorem claim3_counterexample :
    dataflowsToTry "NT_ANT_HAZ_NE2_MOD" "GLOBAL_DATAFLOW"
        = ["GLOBAL_DATAFLOW", "NUTRITION"] ∧
    (dataflowsToTry "NT_ANT_HAZ_NE2_MOD" "GLOBAL_DATAFLOW").getLast?
        ≠ some "GLOBAL_DATAFLOW" := by
  constructor
  · decide
  · decide

/-- C3 (amended): for every indicator code and primary dataflow the
candidate list (primary, then the static prefix-based alternatives, then
the universal fallback, de-duplicated preserving first-seen order) is
never empty, contains no duplicate dataflow ids, always contains
`GLOBAL_DATAFLOW`, and ends with `GLOBAL_DATAFLOW` whenever the primary
dataflow is not itself `GLOBAL_DATAFLOW`. -/
theorem claim3_candidate_list (ind primary : String) :
    dataflowsToTry ind primary ≠ [] ∧
    (dataflowsToTry ind primary).Nodup ∧
    "GLOBAL_DATAFLOW" ∈ dataflowsToTry ind primary ∧
    (primary ≠ "GLOBAL_DATAFLOW" →
      (dataflowsToTry ind primary).getLast? = some "GLOBAL_DATAFLOW") := by
  refine ⟨appendIfAbsent_ne_nil _ _, ?_, ?_, ?_⟩
  · exact nodup_appendIfAbsent _ _
      (nodup_foldl_appendIfAbsent _ [primary] (List.nodup_singleton primary))
  · exact (mem_appendIfAbsent _ _ _).mpr (Or.inr rfl)
  · intro hp
    refine getLast_candidates_of_alts _ primary hp ?_
    unfold dataflowAlternativesFor
    split
    · exact Or.inl (by decide)
    · split
      · exact Or.inl (by decide)
      · split
        · exact Or.inr ⟨["CHLD_PVTY"], rfl, by decide⟩
        · split
          · exact Or.inr ⟨["NUTRITION"], rfl, by decide⟩
          · exact Or.inl (by decide)

/-- C3 (witness): the amended claim instantiated at a concrete indicator
code and primary dataflow. -/
theorem claim3_candidate_list_witness :
    dataflowsToTry "CME_MRY0T4" "CME" ≠ [] ∧
    (dataflowsToTry "CME_MRY0T4" "CME").Nodup ∧
    "GLOBAL_DATAFLOW" ∈ dataflowsToTry "CME_MRY0T4" "CME" ∧
    (dataflowsToTry "CME_MRY0T4" "CME").getLast? = some "GLOBAL_DATAFLOW" := by
  obtain ⟨h1, h2, h3, h4⟩ := claim3_candidate_list "CME_MRY0T4" "CME"
  exact ⟨h1, h2, h3, h4 (by decide)⟩

lemma fetchLoop_cons (fetch : String → FetchOutcome) (d : String)
    (ds : List String) :
    fetchLoop fetch (d :: ds) =
      match fetch d with
      | .ok t => if t.isEmptyTable then fetchLoop fetch ds else .ok t
      | .notFound => fetchLoop fetch ds
      | .failed e => .error e := rfl

lemma fetchLoop_all_notFound (fetch : String → FetchOutcome) (ds : List String)
    (h : ∀ d ∈ ds, fetch d = .notFound) :
    fetchLoop fetch ds = .ok Frame.emptyFrame := by
  induction ds with
  | nil => rfl
  | cons d ds ih =>
    rw [fetchLoop_cons, h d (List.mem_cons_self d ds)]
    exact ih fun x hx => h x (List.mem_cons_of_mem d hx)

lemma fetchLoop_skip_notFound (fetch : String → FetchOutcome)
    (pre rest : List String) (h : ∀ x ∈ pre, fetch x = .notFound) :
    fetchLoop fetch (pre ++ rest) = fetchLoop fetch rest := by
  induction pre with
  | nil => rfl
  | cons d pre ih =>
    rw [List.cons_append, fetchLoop_cons, h d (List.mem_cons_self d pre)]
    exact ih fun x hx => h x (List.mem_cons_of_mem d hx)

/-- C1: the fallback orchestrator iterates the candidate list in order,
absorbing not-found failures; a non-404 failure met after a (possibly
empty) run of not-found candidates propagates immediately whatever the
remaining candidates are; and when every candidate reports not-found the
result is the empty table, not an error. -/
theorem claim1_fallback_error_classification (fetch : String → FetchOutcome)
    (ind primary : String) :
    ((∀ d ∈ dataflowsToTry ind primary, fetch d = .notFound) →
      fetchIndicatorWithFallback fetch ind primary = .ok Frame.emptyFrame) ∧
    (∀ (pre post : List String) (d : String) (e : FetchErr),
      dataflowsToTry ind primary = pre ++ d :: post →
      (∀ x ∈ pre, fetch x = .notFound) →
      fetch d = .failed e →
      fetchIndicatorWithFallback fetch ind primary = .error e) := by
  constructor
  · intro h
    exact fetchLoop_all_notFound fetch _ h
  · intro pre post d e hsplit hpre hd
    unfold fetchIndicatorWithFallback
    rw [hsplit, fetchLoop_skip_notFound fetch pre _ hpre, fetchLoop_cons, hd]

/-- C1 (witness): the classification applied to two concrete fetchers on
the candidate list of `CME_MRY0T4` with primary `CME`, which is
`[CME, GLOBAL_DATAFLOW]`: all-404 yields the empty table, while a server
error on the first candidate propagates. -/
theorem claim1_fallback_error_classification_witness :
    fetchIndicatorWithFallback (fun _ => FetchOutcome.notFound)
        "CME_MRY0T4" "CME" = .ok Frame.emptyFrame ∧
    fetchIndicatorWithFallback
        (fun d => if d = "CME" then FetchOutcome.failed .serverError
          else FetchOutcome.notFound)
        "CME_MRY0T4" "CME" = .error .serverError := by
  constructor
  · exact (claim1_fallback_error_classification (fun _ => FetchOutcome.notFound)
      "CME_MRY0T4" "CME").1 (fun d _ => rfl)
  · exact (claim1_fallback_error_classification _ "CME_MRY0T4" "CME").2
      [] ["GLOBAL_DATAFLOW"] "CME" .serverError (by decide)
      (fun x hx => absurd hx (List.not_mem_nil x)) (by decide)

/-- C10: a candidate whose fetch succeeds with an empty table does not end
the iteration: the orchestrator moves on to the remaining candidates
exactly as it does after a not-found failure. -/
theorem claim10_empty_success_continues (fetch : String → FetchOutcome)
    (d : String) (ds : List String) :
    (∀ t : Frame, fetch d = .ok t → t.isEmptyTable = true →
      fetchLoop fetch (d :: ds) = fetchLoop fetch ds) ∧
    (fetch d = .notFound → fetchLoop fetch (d :: ds) = fetchLoop fetch ds) := by
  constructor
  · intro t hd hempty
    rw [fetchLoop_cons, hd]
    simp [hempty]
  · intro hd
    rw [fetchLoop_cons, hd]

/-- C10 (witness): with a first candidate succeeding on an empty table and
a second succeeding on a non-empty one, the loop skips the first and the
second candidate's table becomes the result. -/
theorem claim10_empty_success_continues_witness :
    fetchLoop
        (fun d => if d = "A" then FetchOutcome.ok Frame.emptyFrame
          else FetchOutcome.ok ⟨["value"], [[Cell.num 1]]⟩)
        ["A", "B"]
      = fetchLoop
        (fun d => if d = "A" then FetchOutcome.ok Frame.emptyFrame
          else FetchOutcome.ok ⟨["value"], [[Cell.num 1]]⟩)
        ["B"] ∧
    fetchLoop
        (fun d => if d = "A" then FetchOutcome.ok Frame.emptyFrame
          else FetchOutcome.ok ⟨["value"], [[Cell.num 1]]⟩)
        ["B"]
      = .ok ⟨["value"], [[Cell.num 1]]⟩ := by
  constructor
  · exact (claim10_empty_success_continues _ "A" ["B"]).1
      Frame.emptyFrame (by decide) rfl
  · rfl

/-!
## Claims about the transformation pipeline
-/

/-- C2 (failing evaluations): on a duplicate-free two-country table in
the fetcher's tidy schema, each of the metadata-enrichment, MRV, latest
and wide-format stages raises a `KeyError` on `country_code` — the
column that the pipeline itself just renamed to `iso3` — so the
duplicate error of stage 0 is not the only hard stop, whatever the
static lookup tables contain. -/
theorem claim2_other_stages_raise : ∀ T : LookupTables,
    getUnicefPostProduction T ["CME_MRY0T4"] stagesExampleInput
        { addMetadata := some ["region"] } = .error (.keyError "country_code") ∧
    getUnicefPostProduction T ["CME_MRY0T4"] stagesExampleInput
        { mrv := some 3 } = .error (.keyError "country_code") ∧
    getUnicefPostProduction T ["CME_MRY0T4"] stagesExampleInput
        { latest := true } = .error (.keyError "country_code") ∧
    getUnicefPostProduction T ["CME_MRY0T4"] stagesExampleInput
        { format := "wide" } = .error (.keyError "country_code") :=
  fun _ => ⟨rfl, rfl, rfl, rfl⟩

/-- C4: when the normalized raw table contains exact duplicates, stage 0
is reached before any option-driven stage: with tolerance off the call
raises the duplicate-count error whatever the other options are, and
with tolerance on (other options at their defaults) the result keeps
exactly the first occurrence of each duplicate group together with a
non-fatal warning carrying the count. -/
theorem claim4_duplicate_stage (T : LookupTables) (inds : List String)
    (f : Frame) (o : PostOptions)
    (hraw : o.raw = false) (hne : f.isEmptyTable = false)
    (hdup : 0 < dupCount (coercePeriodNumeric (standardizeCols f)).rows) :
    (o.ignoreDuplicates = false →
      getUnicefPostProduction T inds f o =
        .error (.duplicateRows
          (dupCount (coercePeriodNumeric (standardizeCols f)).rows))) ∧
    getUnicefPostProduction T inds f { ignoreDuplicates := true } =
      .ok (⟨(coercePeriodNumeric (standardizeCols f)).cols,
            dedupFirst (coercePeriodNumeric (standardizeCols f)).rows⟩,
        [Warning.removedDuplicates
          (dupCount (coercePeriodNumeric (standardizeCols f)).rows)]) := by
  have hlen : 0 < (coercePeriodNumeric (standardizeCols f)).rows.length :=
    lt_of_lt_of_le hdup (Nat.sub_le _ _)
  constructor
  · intro hig
    unfold getUnicefPostProduction
    simp [hraw, hne, hlen, hdup, hig]
    rfl
  · unfold getUnicefPostProduction
    simp [hne, hlen, hdup]
    rfl

/-- C4 (witness): a table holding the same observation twice reports
duplicate count `1`; the default call raises, and the tolerant call
keeps one of the two rows and emits the warning. -/
theorem claim4_duplicate_stage_witness :
    dupCount (coercePeriodNumeric (standardizeCols dupExampleInput)).rows = 1 ∧
    getUnicefPostProduction noTables ["CME_MRY0T4"] dupExampleInput {}
      = .error (.duplicateRows 1) ∧
    getUnicefPostProduction noTables ["CME_MRY0T4"] dupExampleInput
        { ignoreDuplicates := true }
      = .ok (⟨["indicator", "iso3", "country", "period", "value"],
          [[.str "CME_MRY0T4", .str "ALB", .str "Albania", .num 2020, .num 8]]⟩,
        [.removedDuplicates 1]) := by
  obtain ⟨h1, h2⟩ := claim4_duplicate_stage noTables ["CME_MRY0T4"]
    dupExampleInput {} rfl (by decide) (by decide)
  exact ⟨by decide, (h1 rfl).trans rfl, h2.trans rfl⟩

/-- C5 (failing evaluation): on Albania with periods 2018-2021 and
`mrv=2` the pipeline does not return the 2020 and 2021 rows: `_apply_mrv`
sorts on the columns `country_code` and `year`, which the pipeline has
already renamed to `iso3` and `period`, so the call raises `KeyError:
country_code` instead. -/
theorem claim5_mrv_raises : ∀ T : LookupTables,
    getUnicefPostProduction T ["CME_MRY0T4"] mrvExampleInput { mrv := some 2 }
      = .error (.keyError "country_code") :=
  fun _ => rfl

/-- C6 (failing evaluation): on Albania with periods 2018-2021 and the
2021 value missing, `latest=True` does not yield the 2020 row:
`_apply_latest` groups on `country_code` and `year`, which the pipeline
has renamed to `iso3` and `period`, so the call raises `KeyError:
country_code` instead. -/
theorem claim6_latest_raises : ∀ T : LookupTables,
    getUnicefPostProduction T ["CME_MRY0T4"] latestExampleInput
        { latest := true }
      = .error (.keyError "country_code") :=
  fun _ => rfl

/-!
## Claims about the period encoding
-/

/-- C7 (counterexample): the documented formula sends month 12 of 2020
to `2021.0`, whose floor is 2021, not 2020 — the round-trip property
fails at month 12. -/
theorem claim7_counterexample :
    decimalYear 2020 12 = 2021 ∧ ⌊decimalYear 2020 12⌋ ≠ (2020 : ℤ) := by
  have h : decimalYear 2020 12 = (2021 : ℚ) := by
    unfold decimalYear
    norm_num
  constructor
  · exact h
  · rw [h]
    norm_num

/-- C7 (amended): for months 1 through 11 the decimal-year encoding
satisfies the round-trip property `floor(year + month/12) = year`;
month 12 is the exception, mapping to the start of the next year. -/
theorem claim7_roundtrip_amended (y : ℤ) (m : ℕ) (h1 : 1 ≤ m) (h2 : m ≤ 11) :
    ⌊decimalYear y m⌋ = y := by
  unfold decimalYear
  rw [Int.floor_int_add]
  have h0 : ⌊((m : ℚ)) / 12⌋ = 0 := by
    rw [Int.floor_eq_zero_iff]
    refine Set.mem_Ico.mpr ⟨by positivity, ?_⟩
    rw [div_lt_one (by norm_num : (0 : ℚ) < 12)]
    exact_mod_cast Nat.lt_succ_of_le h2
  rw [h0, add_zero]

/-- C7 (witness): June 2020 encodes to 2020.5 and floors back to 2020. -/
theorem claim7_roundtrip_amended_witness : ⌊decimalYear 2020 6⌋ = 2020 :=
  claim7_roundtrip_amended 2020 6 (by norm_num) (by norm_num)

/-!
## Claims about the metadata vintage store
-/

lemma lookup_eq_none_of_countP_eq_zero {β : Type} (l : List (String × β))
    (k : String) (h : l.countP (fun p => decide (p.1 = k)) = 0) :
    l.lookup k = none := by
  induction l with
  | nil => rfl
  | cons p l ih =>
    rw [List.countP_cons] at h
    by_cases hk : p.1 = k
    · exfalso
      simp [hk] at h
    · have h0 : l.countP (fun q => decide (q.1 = k)) = 0 := by
        simpa [hk] using h
      have hbeq : (k == p.1) = false := by
        simpa [beq_iff_eq] using fun e => hk e.symm
      show List.lookup k (p :: l) = none
      rcases p with ⟨a, b⟩
      rw [List.lookup]
      rw [show (k == a) = false from hbeq]
      exact ih h0

lemma lookup_append_left_none {β : Type} (l1 l2 : List (String × β))
    (k : String) (h : l1.lookup k = none) :
    (l1 ++ l2).lookup k = l2.lookup k := by
  induction l1 with
  | nil => rfl
  | cons p l ih =>
    rcases p with ⟨a, b⟩
    rw [List.cons_append]
    show List.lookup k ((a, b) :: (l ++ l2)) = _
    rw [List.lookup]
    cases hbeq : (k == a) with
    | true =>
      exfalso
      have : List.lookup k ((a, b) :: l) = none := h
      rw [List.lookup, hbeq] at this
      exact Option.noConfusion this
    | false =>
      have hl : l.lookup k = none := by
        have : List.lookup k ((a, b) :: l) = none := h
        rwa [List.lookup, hbeq] at this
      exact ih hl

lemma createVintage_of_lookup_none (s : MetaStore) (date : String) (t : ℤ)
    (counts : Nat × Nat × Nat) (h : s.vintages.lookup date = none) :
    createVintage s date t counts =
      ⟨s.current,
       s.vintages ++ [(date, ⟨s.current,
         ⟨date, t, counts.1, counts.2.1, counts.2.2⟩⟩)],
       s.history⟩ := by
  unfold createVintage
  rw [h]

lemma createVintage_of_lookup_some (s : MetaStore) (date : String) (t : ℤ)
    (counts : Nat × Nat × Nat) (v : VintageDir)
    (h : s.vintages.lookup date = some v) :
    createVintage s date t counts = s := by
  unfold createVintage
  rw [h]

/-- C8: a vintage, once created for a calendar date, is never
overwritten: starting from a store with no vintage for `date`, two
consecutive syncs dated `date` leave exactly one vintage directory for
`date`, the second sync does not touch it, and its catalog files are
the copies of `current/` written by the first sync. -/
theorem claim8_vintage_never_overwritten (s : MetaStore) (now1 now2 : ℤ)
    (date : String) (f1 f2 : FetchedCatalogs)
    (hfresh : s.vintages.countP (fun p => decide (p.1 = date)) = 0) :
    ((syncAll (syncAll s now1 date f1 true).1 now2 date f2 true).1.vintages.countP
        (fun p => decide (p.1 = date)) = 1) ∧
    ((syncAll (syncAll s now1 date f1 true).1 now2 date f2 true).1.vintages.lookup
        date
      = (syncAll s now1 date f1 true).1.vintages.lookup date) ∧
    (((syncAll s now1 date f1 true).1.vintages.lookup date).map VintageDir.files
      = some (syncAll s now1 date f1 true).1.current) := by
  have hlook : s.vintages.lookup date = none :=
    lookup_eq_none_of_countP_eq_zero _ _ hfresh
  have hstep1 : (syncAll s now1 date f1 true).1 =
      ⟨(syncCurrent s.current f1).1,
       s.vintages ++ [(date, ⟨(syncCurrent s.current f1).1,
         ⟨date, now1, (syncCurrent s.current f1).2.1.1,
          (syncCurrent s.current f1).2.1.2.1,
          (syncCurrent s.current f1).2.1.2.2⟩⟩)],
       (⟨date, .parsed now1, (syncCurrent s.current f1).2.1.1,
          (syncCurrent s.current f1).2.1.2.1,
          (syncCurrent s.current f1).2.1.2.2,
          (syncCurrent s.current f1).2.2⟩ :: s.history).take 50⟩ := by
    show updateSyncHistory (createVintage ⟨(syncCurrent s.current f1).1,
      s.vintages, s.history⟩ date now1 (syncCurrent s.current f1).2.1) _ = _
    rw [createVintage_of_lookup_none _ _ _ _ (by exact hlook)]
    rfl
  have hlook2 : ((syncAll s now1 date f1 true).1).vintages.lookup date
      = some ⟨(syncCurrent s.current f1).1,
        ⟨date, now1, (syncCurrent s.current f1).2.1.1,
         (syncCurrent s.current f1).2.1.2.1,
         (syncCurrent s.current f1).2.1.2.2⟩⟩ := by
    rw [hstep1]
    show (s.vintages ++ [_]).lookup date = _
    rw [lookup_append_left_none _ _ _ hlook]
    show List.lookup date [(date, _)] = _
    rw [List.lookup]
    simp
  have hstep2 : (syncAll (syncAll s now1 date f1 true).1 now2 date f2 true).1.vintages
      = ((syncAll s now1 date f1 true).1).vintages := by
    show (updateSyncHistory (createVintage ⟨_, ((syncAll s now1 date f1 true).1).vintages,
      _⟩ date now2 _) _).vintages = _
    rw [createVintage_of_lookup_some _ _ _ _ _ (by exact hlook2)]
    rfl
  refine ⟨?_, ?_, ?_⟩
  · rw [hstep2, hstep1]
    show (s.vintages ++ [_]).countP _ = 1
    rw [List.countP_append, hfresh]
    simp
  · rw [hstep2]
  · rw [hlook2, hstep1]
    rfl

/-- C8 (witness): two same-day syncs of an initially empty store, with
the service returning different catalogs on the second sync. -/
theorem claim8_vintage_never_overwritten_witness :
    ((syncAll (syncAll emptyStore 100 "2025-12-01" fetchedA true).1
        200 "2025-12-01" fetchedB true).1.vintages.countP
      (fun p => decide (p.1 = "2025-12-01")) = 1) ∧
    ((syncAll (syncAll emptyStore 100 "2025-12-01" fetchedA true).1
        200 "2025-12-01" fetchedB true).1.vintages.lookup "2025-12-01"
      = (syncAll emptyStore 100 "2025-12-01" fetchedA true).1.vintages.lookup
          "2025-12-01") ∧
    (((syncAll emptyStore 100 "2025-12-01" fetchedA true).1.vintages.lookup
        "2025-12-01").map VintageDir.files
      = some (syncAll emptyStore 100 "2025-12-01" fetchedA true).1.current) :=
  claim8_vintage_never_overwritten emptyStore 100 200 "2025-12-01"
    fetchedA fetchedB (by decide)

lemma staleHistory_cons (e : SyncEntry) (rest : List SyncEntry)
    (now maxAgeDays : ℤ) :
    staleHistory (e :: rest) now maxAgeDays =
      match e.syncedAt with
      | .absent => true
      | .unparsable => true
      | .parsed t => decide (maxAgeDays < (now - t).fdiv 86400) := rfl

/-- C9: `ensure_synced` performs no sync and reports `false` when the
newest history timestamp is younger than the threshold (in whole days);
it syncs and reports `true` when that timestamp is older than the
threshold, absent, or unparsable, or when the history is empty. -/
theorem claim9_ensure_synced (s : MetaStore) (now maxAgeDays : ℤ)
    (date : String) (fetched : FetchedCatalogs) :
    (∀ e rest t, s.history = e :: rest → e.syncedAt = .parsed t →
      (now - t).fdiv 86400 < maxAgeDays →
      ensureSynced s now maxAgeDays date fetched = (false, s)) ∧
    (∀ e rest t, s.history = e :: rest → e.syncedAt = .parsed t →
      maxAgeDays < (now - t).fdiv 86400 →
      ensureSynced s now maxAgeDays date fetched
        = (true, (syncAll s now date fetched true).1)) ∧
    (s.history = [] →
      ensureSynced s now maxAgeDays date fetched
        = (true, (syncAll s now date fetched true).1)) ∧
    (∀ e rest, s.history = e :: rest →
      (e.syncedAt = .absent ∨ e.syncedAt = .unparsable) →
      ensureSynced s now maxAgeDays date fetched
        = (true, (syncAll s now date fetched true).1)) := by
  refine ⟨?_, ?_, ?_, ?_⟩
  · intro e rest t hh hs hlt
    have hst : isStale s now maxAgeDays = false := by
      unfold isStale
      rw [hh, staleHistory_cons, hs]
      simp only [decide_eq_false_iff_not, not_lt]
      exact le_of_lt hlt
    unfold ensureSynced
    rw [hst]
    simp
  · intro e rest t hh hs hgt
    have hst : isStale s now maxAgeDays = true := by
      unfold isStale
      rw [hh, staleHistory_cons, hs]
      simpa using hgt
    unfold ensureSynced
    rw [hst]
    simp
  · intro hh
    have hst : isStale s now maxAgeDays = true := by
      unfold isStale
      rw [hh]
      rfl
    unfold ensureSynced
    rw [hst]
    simp
  · intro e rest hh hs
    have hst : isStale s now maxAgeDays = true := by
      unfold isStale
      rw [hh, staleHistory_cons]
      rcases hs with hs | hs <;> rw [hs]
    unfold ensureSynced
    rw [hst]
    simp

/-- C9 (witness): with a 1-day-old timestamp and a 30-day threshold no
sync happens; with a 40-day-old timestamp, an empty history, or an
unparsable timestamp a sync happens. -/
theorem claim9_ensure_synced_witness :
    ensureSynced ⟨⟨none, none, none⟩, [],
        [⟨"2025-12-01", .parsed 0, 2, 1, 1, []⟩]⟩ 86400 30 "2025-12-02" fetchedA
      = (false, ⟨⟨none, none, none⟩, [],
          [⟨"2025-12-01", .parsed 0, 2, 1, 1, []⟩]⟩) ∧
    ensureSynced ⟨⟨none, none, none⟩, [],
        [⟨"2025-12-01", .parsed 0, 2, 1, 1, []⟩]⟩ (86400 * 40) 30 "2026-01-10"
        fetchedA
      = (true, (syncAll ⟨⟨none, none, none⟩, [],
          [⟨"2025-12-01", .parsed 0, 2, 1, 1, []⟩]⟩ (86400 * 40) "2026-01-10"
          fetchedA true).1) ∧
    ensureSynced emptyStore 0 30 "2025-12-01" fetchedA
      = (true, (syncAll emptyStore 0 "2025-12-01" fetchedA true).1) ∧
    ensureSynced ⟨⟨none, none, none⟩, [],
        [⟨"2025-12-01", .unparsable, 2, 1, 1, []⟩]⟩ 0 30 "2025-12-01" fetchedA
      = (true, (syncAll ⟨⟨none, none, none⟩, [],
          [⟨"2025-12-01", .unparsable, 2, 1, 1, []⟩]⟩ 0 "2025-12-01"
          fetchedA true).1) := by
  obtain ⟨c1, c2, c3, c4⟩ := claim9_ensure_synced
    (⟨⟨none, none, none⟩, [], [⟨"2025-12-01", .parsed 0, 2, 1, 1, []⟩]⟩ :
      MetaStore) 86400 30 "2025-12-02" fetchedA
  refine ⟨c1 _ _ 0 rfl rfl (by decide), ?_, ?_, ?_⟩
  · exact (claim9_ensure_synced _ (86400 * 40) 30 "2026-01-10" fetchedA).2.1
      _ _ 0 rfl rfl (by decide)
  · exact (claim9_ensure_synced emptyStore 0 30 "2025-12-01" fetchedA).2.2.1 rfl
  · exact (claim9_ensure_synced _ 0 30 "2025-12-01" fetchedA).2.2.2
      _ _ rfl (Or.inr rfl)

end UnicefData
